import Mathlib

/-!
Verification development for the ScopedContext core of the
heterogeneous-clue repository (src/src/hiptest/CUDACore/ScopedContext.h).

The header declares several members whose bodies live in other files of
the repository that are not available here (ScopedContext.cc, Product.h,
ContextState.h, EventCache.h, the edm framework).  Those parts are
modelled from the specification (spec.md) and are marked with doc
comments starting with `Modelled from the spec:`.  Everything else is a
direct shallow embedding of the header.

Conventions of the embedding:
- `hipStream_t` / `SharedStreamPtr` raw and shared stream handles are
  `Option Nat` (`none` models a null / released handle, `some n` a live
  handle identified by `n`).  `SharedEventPtr` likewise.
- driver calls issued by an operation are returned explicitly as a list,
  so "issues exactly one wait-on-event call" becomes a statement about
  that list.
- the fatal failures of the C++ code (exceptions) are `Except`/`Option`
  failures of the corresponding Lean functions.
-/

namespace CmsHip

/-- Shared (reference-counted) stream handle: `none` is a null/empty
pointer, `some n` a live stream identified by `n`.  The raw
`hipStream_t` obtained by `.get()` carries the same information, so the
same type models both. -/
abbrev SharedStreamPtr := Option Nat

/-- Shared (reference-counted) event handle, same convention as
`SharedStreamPtr`. -/
abbrev SharedEventPtr := Option Nat

/-- Calls into the GPU driver that the getter can issue.  `waitEvent s e`
is the non-blocking "stream `s` waits for event `e`" instruction
(hipStreamWaitEvent). -/
inductive DriverCall where
  | waitEvent (stream : SharedStreamPtr) (event : SharedEventPtr)
  deriving DecidableEq, Repr

/-- Modelled from the spec: the result wrapper `ProductBase`
(CUDACore/Product.h is not among the available sources).  Spec section 3:
immutable tuple of device, stream, event and an availability flag.  The
`available` field is the value the dynamic `isAvailable()` query returns
at the moment of the read. -/
structure ProductBase where
  device : Int
  stream : SharedStreamPtr
  event : SharedEventPtr
  available : Bool
  deriving DecidableEq, Repr

/-- Modelled from the spec: `Product T` is the result wrapper `ProductBase`
together with the wrapped value `data_`. -/
structure Product (T : Type) extends ProductBase where
  data_ : T
  deriving DecidableEq, Repr

/-- Embedding of `impl::ScopedContextBase`: the selected current device and
the stream held for the scope's lifetime. -/
structure ScopedContextBase where
  currentDevice_ : Int
  stream_ : SharedStreamPtr
  deriving DecidableEq, Repr

/-- `ScopedContextBase::device()`. -/
def ScopedContextBase.device (s : ScopedContextBase) : Int := s.currentDevice_

/-- `ScopedContextBase::stream()` (the raw handle; same information as the
shared pointer in this model). -/
def ScopedContextBase.stream (s : ScopedContextBase) : SharedStreamPtr := s.stream_

/-- `ScopedContextBase::streamPtr()`. -/
def ScopedContextBase.streamPtr (s : ScopedContextBase) : SharedStreamPtr := s.stream_

namespace ScopedContextGetterBase

/-- Modelled from the spec: the body of
`ScopedContextGetterBase::synchronizeStreams` is in ScopedContext.cc,
which is not among the available sources.  Spec section 4.2: if the data
is available, issue no wait; else if the data was produced on this very
stream, issue no wait; else issue one non-blocking wait-on-event call
binding this scope's stream to the data event. -/
def synchronizeStreams (ctx : ScopedContextBase) (dataDevice : Int)
    (dataStream : SharedStreamPtr) (available : Bool)
    (dataEvent : SharedEventPtr) : List DriverCall :=
  if available then []
  else if dataStream = ctx.stream then []
  else [DriverCall.waitEvent ctx.stream dataEvent]

/-- `ScopedContextGetterBase::get(const Product<T>&)`: calls
`synchronizeStreams(data.device(), data.stream(), data.isAvailable(),
data.event())` and returns `data.data_`.  The result is the returned
reference paired with the driver calls issued. -/
def get {T : Type} (ctx : ScopedContextBase) (data : Product T) :
    T × List DriverCall :=
  (data.data_,
   synchronizeStreams ctx data.device data.stream data.available data.event)

end ScopedContextGetterBase

/-- Modelled from the spec: the host framework's typed, token-addressed
result store (`edm::Event` is not among the available sources; spec
section 6: `get(token) -> ResultWrapper<T>`).  It is kept abstract as a
total token-to-wrapper map. -/
structure EdmEvent (T : Type) where
  get : Nat → Product T

/-- `ScopedContextGetterBase::get(const edm::Event&, edm::EDGetTokenT<...>)`:
the token-addressed overload, which simply calls the wrapper-based getter
on `iEvent.get(token)`. -/
def ScopedContextGetterBase.getToken {T : Type} (ctx : ScopedContextBase)
    (iEvent : EdmEvent T) (token : Nat) : T × List DriverCall :=
  ScopedContextGetterBase.get ctx (iEvent.get token)

/-- Modelled from the spec: `ContextState` (CUDACore/ContextState.h is not
among the available sources).  Spec section 3: a `{device, stream}` pair
captured at Acquire time; the stream slot is emptied when ownership is
transferred out. -/
structure ContextState where
  device_ : Int
  stream_ : SharedStreamPtr
  deriving DecidableEq, Repr

/-- `ContextState::device()`. -/
def ContextState.device (s : ContextState) : Int := s.device_

/-- `ContextState::streamPtr()`: read-only access to the held stream. -/
def ContextState.streamPtr (s : ContextState) : SharedStreamPtr := s.stream_

/-- Modelled from the spec: `ContextState::releaseStreamPtr()` (not among
the available sources).  Spec sections 4.5 and 8: transfers single
ownership of the stream out of the continuation state, which no longer
holds a usable stream afterward.  Returns the moved-out shared pointer
together with the post-move state. -/
def ContextState.releaseStreamPtr (s : ContextState) :
    SharedStreamPtr × ContextState :=
  (s.stream_, { s with stream_ := none })

/-- Modelled from the spec: the externally supplied notification primitive
(`edm::WaitingTaskWithArenaHolder`) and the composed targets built from it
by `edm::make_waiting_task_with_holder` (Framework/, not among the
available sources).  Spec sections 4.3 and 9: a target is either the
framework-supplied holder or the previously held target wrapped together
with a user callback and its continuation state. -/
inductive NotifTarget (F : Type) where
  | holder (id : Nat)
  | composed (prev : NotifTarget F) (func : F) (state : ContextState)
  deriving DecidableEq, Repr

/-- Modelled from the spec: what fires when the stream completes and the
held target is invoked.  Invoking a composed target runs its callback
with its continuation state and then the previously held target fires as
part of the same chain; the chain bottoms out at the framework holder,
which is signalled once.  Returns the fired (callback, state) pairs in
firing order together with the id of the signalled framework holder. -/
def NotifTarget.fire {F : Type} : NotifTarget F → List (F × ContextState) × Nat
  | .holder id => ([], id)
  | .composed prev f s => ((f, s) :: (prev.fire).1, (prev.fire).2)

/-- Embedding of `impl::ScopedContextHolderHelper`: owns the single held
notification target. -/
structure ScopedContextHolderHelper (F : Type) where
  waitingTaskHolder_ : NotifTarget F
  deriving DecidableEq, Repr

/-- `ScopedContextHolderHelper::replaceWaitingTaskHolder`: swaps the held
target outright. -/
def ScopedContextHolderHelper.replaceWaitingTaskHolder {F : Type}
    (h : ScopedContextHolderHelper F) (w : NotifTarget F) :
    ScopedContextHolderHelper F :=
  { waitingTaskHolder_ := w }

/-- `impl::ScopedContextHolderHelper::pushNextTask` (header lines 228-235):
replaces the held target with a new one built by
`make_waiting_task_with_holder` from the current held target, the given
callback and the given continuation state. -/
def ScopedContextHolderHelper.pushNextTask {F : Type}
    (h : ScopedContextHolderHelper F) (f : F) (state : ContextState) :
    ScopedContextHolderHelper F :=
  h.replaceWaitingTaskHolder (NotifTarget.composed h.waitingTaskHolder_ f state)

/-- A host-callback registration produced by `enqueueCallback`: the device
and stream whose completion is bound, and the notification target that
will fire. -/
structure EnqueueRecord (F : Type) where
  device : Int
  stream : SharedStreamPtr
  target : NotifTarget F
  deriving DecidableEq, Repr

/-- Modelled from the spec: the body of
`ScopedContextHolderHelper::enqueueCallback` is in ScopedContext.cc,
which is not among the available sources.  Spec section 4.3: binds the
currently held notification to the completion of the work queued so far
on `stream` under `device`; one such binding per call. -/
def ScopedContextHolderHelper.enqueueCallback {F : Type}
    (h : ScopedContextHolderHelper F) (device : Int)
    (stream : SharedStreamPtr) : List (EnqueueRecord F) :=
  [⟨device, stream, h.waitingTaskHolder_⟩]

/-- Modelled from the spec: the pooled event allocator behind
`getEventCache()` (CUDACore/EventCache.h is not among the available
sources).  Spec section 6: `acquire-event() -> event`; allocation fails
when the pool is exhausted. -/
structure EventCache where
  free : List Nat
  deriving DecidableEq, Repr

/-- Modelled from the spec: `EventCache::get()` hands out the next pooled
event, or fails when the pool is exhausted. -/
def EventCache.get (c : EventCache) : Option (Nat × EventCache) :=
  match c.free with
  | [] => none
  | e :: rest => some (e, { free := rest })

/-- Embedding of `ScopedContextProduce`: the base scope plus the one event
the scope owns (header line 182). -/
structure ScopedContextProduce extends ScopedContextBase where
  event_ : SharedEventPtr
  deriving DecidableEq, Repr

/-- Construction of a `ScopedContextProduce` over an already-built base
scope.  The default member initializer `event_ = getEventCache().get()`
(header line 182, with the comment "create the CUDA Event upfront to
catch possible errors from its creation") runs during construction, so
construction fails exactly when the event allocation fails. -/
def ScopedContextProduce.construct (base : ScopedContextBase)
    (cache : EventCache) : Option (ScopedContextProduce × EventCache) :=
  match cache.get with
  | none => none
  | some (e, cache') => some ({ base with event_ := some e }, cache')

/-- `ScopedContextProduce::ScopedContextProduce(ContextState&)` (header
lines 157-158): delegates to the base with `state.device()` and
`state.releaseStreamPtr()`; the event is allocated as in
`ScopedContextProduce.construct`.  Returns the scope, the
post-construction continuation state, and the remaining pool. -/
def ScopedContextProduce.fromState (state : ContextState)
    (cache : EventCache) :
    Option (ScopedContextProduce × ContextState × EventCache) :=
  let moved := state.releaseStreamPtr
  match ScopedContextProduce.construct ⟨state.device, moved.1⟩ cache with
  | none => none
  | some (scope, cache') => some (scope, moved.2, cache')

/-- `ScopedContextProduce::wrap` (header lines 163-167): builds a result
wrapper from `device()`, `streamPtr()`, `event_` and the value.  A
freshly wrapped product's work is not yet known to be complete, so its
availability query reads false. -/
def ScopedContextProduce.wrap {T : Type} (ctx : ScopedContextProduce)
    (data : T) : Product T :=
  { device := ctx.toScopedContextBase.device,
    stream := ctx.toScopedContextBase.streamPtr,
    event := ctx.event_,
    available := false,
    data_ := data }

/-- `ScopedContextProduce::emplace` (header lines 169-172): asks the
framework store to construct the wrapper in place from `device()`,
`streamPtr()`, `event_` and the forwarded arguments.  The framework store
itself is external; the embedding returns the wrapper that is emplaced
under the token together with the updated store. -/
def ScopedContextProduce.emplace {T : Type} (ctx : ScopedContextProduce)
    (store : Nat → Option (Product T)) (token : Nat) (data : T) :
    (Nat → Option (Product T)) × Product T :=
  let p : Product T :=
    { device := ctx.toScopedContextBase.device,
      stream := ctx.toScopedContextBase.streamPtr,
      event := ctx.event_,
      available := false,
      data_ := data }
  (fun t => if t = token then some p else store t, p)

/-- Embedding of `ScopedContextAcquire`: base scope, holder helper, and the
optional pointer to externally supplied continuation state
(`contextState_ = nullptr` when none was supplied at construction). -/
structure ScopedContextAcquire (F : Type) extends ScopedContextBase where
  holderHelper_ : ScopedContextHolderHelper F
  contextState_ : Option ContextState
  deriving DecidableEq, Repr

/-- `ScopedContextAcquire::pushNextTask` (header lines 124-129): if no
continuation state was supplied, `throwNoState()` fails fatally (its body
is in ScopedContext.cc; modelled from the spec as a fatal
programming-contract violation); otherwise delegates to the holder
helper's `pushNextTask` with the stored state. -/
def ScopedContextAcquire.pushNextTask {F : Type}
    (s : ScopedContextAcquire F) (f : F) :
    Except String (ScopedContextAcquire F) :=
  match s.contextState_ with
  | none => .error "ScopedContextAcquire::pushNextTask called without ContextState"
  | some st =>
    .ok { s with holderHelper_ := s.holderHelper_.pushNextTask f st }

/-- Modelled from the spec: the body of `~ScopedContextAcquire` is in
ScopedContext.cc, which is not among the available sources.  Spec
section 4.4: on destruction the scope calls `enqueueCallback` exactly
once, on its own device and stream. -/
def ScopedContextAcquire.destruct {F : Type} (s : ScopedContextAcquire F) :
    List (EnqueueRecord F) :=
  s.holderHelper_.enqueueCallback s.toScopedContextBase.device
    s.toScopedContextBase.stream

/-- One lifetime of an Acquire scope: apply `pushNextTask` once per listed
callback, then destroy the scope.  The result is the list of
`enqueueCallback` registrations made over the whole lifetime (the pushes
themselves register nothing), or the fatal error if a push failed. -/
def ScopedContextAcquire.run {F : Type} (s : ScopedContextAcquire F)
    (fs : List F) : Except String (List (EnqueueRecord F)) :=
  match fs with
  | [] => .ok s.destruct
  | f :: rest =>
    match s.pushNextTask f with
    | .error e => .error e
    | .ok s' => s'.run rest

/-- Embedding of `ScopedContextTask`: base scope, holder helper, and the
read-only pointer to the continuation state. -/
structure ScopedContextTask (F : Type) extends ScopedContextBase where
  holderHelper_ : ScopedContextHolderHelper F
  contextState_ : ContextState
  deriving DecidableEq, Repr

/-- `ScopedContextTask::ScopedContextTask` (header lines 194-197):
delegates to the base with `state->device()` and `state->streamPtr()` —
the source comment says "don't move, state is re-used afterwards" — and
stores the holder and the state pointer.  Returns the scope together with
the continuation state as it stands after construction. -/
def ScopedContextTask.construct {F : Type} (state : ContextState)
    (waitingTaskHolder : NotifTarget F) :
    ScopedContextTask F × ContextState :=
  ({ currentDevice_ := state.device,
     stream_ := state.streamPtr,
     holderHelper_ := ⟨waitingTaskHolder⟩,
     contextState_ := state }, state)

/-! ## Helper lemmas -/

/-- A successfully constructed Produce scope holds the first event of the
pool as its own event. -/
theorem construct_event_from_cache (base : ScopedContextBase)
    (cache : EventCache) (scope : ScopedContextProduce) (cache' : EventCache)
    (h : ScopedContextProduce.construct base cache = some (scope, cache')) :
    ∃ e rest, cache.free = e :: rest ∧ scope.event_ = some e := by
  rcases cache with ⟨free⟩
  cases free with
  | nil => simp [ScopedContextProduce.construct, EventCache.get] at h
  | cons e rest =>
    refine ⟨e, rest, rfl, ?_⟩
    simp only [ScopedContextProduce.construct, EventCache.get,
      Option.some.injEq, Prod.mk.injEq] at h
    rw [← h.1]

/-! ## Claim theorems -/

/-- C1: reading a result wrapper whose work is not yet available and whose
producing stream differs from the consuming scope's stream issues exactly
one non-blocking wait-on-event call binding the consuming scope's stream
to the wrapper's event, and returns the wrapped value. -/
theorem get_unavailable_other_stream_waits_once {T : Type}
    (ctx : ScopedContextBase) (data : Product T)
    (hav : data.available = false) (hs : data.stream ≠ ctx.stream) :
    ScopedContextGetterBase.get ctx data =
      (data.data_, [DriverCall.waitEvent ctx.stream data.event]) := by
  simp [ScopedContextGetterBase.get,
    ScopedContextGetterBase.synchronizeStreams, hav, hs]

/-- Witness for C1 at a concrete unavailable wrapper on another stream. -/
theorem get_unavailable_other_stream_waits_once_witness :
    ScopedContextGetterBase.get ⟨0, some 1⟩
        (⟨⟨0, some 2, some 5, false⟩, (42 : Nat)⟩ : Product Nat) =
      ((42 : Nat), [DriverCall.waitEvent (some 1) (some 5)]) :=
  get_unavailable_other_stream_waits_once ⟨0, some 1⟩
    ⟨⟨0, some 2, some 5, false⟩, 42⟩ rfl (by decide)

/-- C2: reading a result wrapper that is already available, or that was
produced on the consuming scope's own stream, issues zero wait-on-event
calls and returns the wrapped value. -/
theorem get_available_or_same_stream_no_wait {T : Type}
    (ctx : ScopedContextBase) (data : Product T)
    (h : data.available = true ∨ data.stream = ctx.stream) :
    ScopedContextGetterBase.get ctx data = (data.data_, []) := by
  rcases h with h | h <;>
    simp [ScopedContextGetterBase.get,
      ScopedContextGetterBase.synchronizeStreams, h]

/-- Witness for C2: an available wrapper on a different stream, and an
unavailable wrapper on the same stream. -/
theorem get_available_or_same_stream_no_wait_witness :
    ScopedContextGetterBase.get ⟨0, some 1⟩
        (⟨⟨0, some 2, some 5, true⟩, (7 : Nat)⟩ : Product Nat) =
      ((7 : Nat), []) ∧
    ScopedContextGetterBase.get ⟨0, some 1⟩
        (⟨⟨0, some 1, some 5, false⟩, (8 : Nat)⟩ : Product Nat) =
      ((8 : Nat), []) :=
  ⟨get_available_or_same_stream_no_wait ⟨0, some 1⟩
      ⟨⟨0, some 2, some 5, true⟩, 7⟩ (Or.inl rfl),
   get_available_or_same_stream_no_wait ⟨0, some 1⟩
      ⟨⟨0, some 1, some 5, false⟩, 8⟩ (Or.inr rfl)⟩

/-- C3: an Acquire scope that was constructed with a continuation state,
after any number N of pushNextTask calls followed by destruction, makes
exactly one enqueueCallback registration over its whole lifetime, at
destruction. -/
theorem acquire_run_single_enqueue {F : Type} (s : ScopedContextAcquire F)
    (h : s.contextState_.isSome) (fs : List F) :
    ∃ rec : EnqueueRecord F, s.run fs = Except.ok [rec] := by
  induction fs generalizing s with
  | nil =>
    exact ⟨⟨s.toScopedContextBase.device, s.toScopedContextBase.stream,
      s.holderHelper_.waitingTaskHolder_⟩, rfl⟩
  | cons f rest ih =>
    rcases hst : s.contextState_ with _ | st
    · rw [hst] at h; simp at h
    · have hpush : s.pushNextTask f =
          Except.ok { s with holderHelper_ := s.holderHelper_.pushNextTask f st } := by
        unfold ScopedContextAcquire.pushNextTask
        rw [hst]
      have hnext :
          ({ s with holderHelper_ := s.holderHelper_.pushNextTask f st } :
            ScopedContextAcquire F).contextState_.isSome := by
        simp [hst]
      have hres := ih _ hnext
      unfold ScopedContextAcquire.run
      rw [hpush]
      exact hres

/-- Witness for C3: two pushes on a concrete scope with a state, then
destruction, yield exactly one registration. -/
theorem acquire_run_single_enqueue_witness :
    ∃ rec : EnqueueRecord Nat,
      ScopedContextAcquire.run
          ⟨⟨0, some 1⟩, ⟨NotifTarget.holder 0⟩, some ⟨0, some 1⟩⟩ [10, 20] =
        Except.ok [rec] :=
  acquire_run_single_enqueue
    ⟨⟨0, some 1⟩, ⟨NotifTarget.holder 0⟩, some ⟨0, some 1⟩⟩ rfl [10, 20]

/-- C4: pushNextTask replaces the held notification target with the
composition of the previously held target, the given callback and the
given continuation state; after two pushes the single held target is the
latest composition, and firing it runs the latest callback and then the
previously held target's whole chain, down to the framework holder — the
previous target is never silently dropped. -/
theorem pushNextTask_composes {F : Type} (h : ScopedContextHolderHelper F)
    (f1 f2 : F) (s1 s2 : ContextState) :
    ((h.pushNextTask f1 s1).pushNextTask f2 s2).waitingTaskHolder_ =
      NotifTarget.composed ((h.pushNextTask f1 s1).waitingTaskHolder_) f2 s2 ∧
    (((h.pushNextTask f1 s1).pushNextTask f2 s2).waitingTaskHolder_).fire =
      ((f2, s2) :: (f1, s1) :: (h.waitingTaskHolder_.fire).1,
       (h.waitingTaskHolder_.fire).2) :=
  ⟨rfl, rfl⟩

/-- C5: a Produce scope allocates its event from the pool during
construction, so an exhausted pool makes construction itself fail (no
scope value exists to wrap anything or queue work), and every
successfully constructed scope already holds the allocated event. -/
theorem produce_construct_eager (base : ScopedContextBase)
    (cache : EventCache) :
    (ScopedContextProduce.construct base cache = none ↔
        EventCache.get cache = none) ∧
      ∀ scope cache',
        ScopedContextProduce.construct base cache = some (scope, cache') →
          ∃ e rest, cache.free = e :: rest ∧ scope.event_ = some e := by
  constructor
  · rcases cache with ⟨free⟩
    cases free with
    | nil => simp [ScopedContextProduce.construct, EventCache.get]
    | cons e rest => simp [ScopedContextProduce.construct, EventCache.get]
  · intro scope cache' h
    exact construct_event_from_cache base cache scope cache' h

/-- Witness for C5: an empty pool fails construction; a one-event pool
yields a scope already holding that event. -/
theorem produce_construct_eager_witness :
    ScopedContextProduce.construct ⟨0, some 1⟩ ⟨[]⟩ = none ∧
      ∃ e rest, EventCache.free ⟨[5]⟩ = e :: rest ∧
        (⟨⟨0, some 1⟩, some 5⟩ : ScopedContextProduce).event_ = some e :=
  ⟨(produce_construct_eager ⟨0, some 1⟩ ⟨[]⟩).1.mpr rfl,
   (produce_construct_eager ⟨0, some 1⟩ ⟨[5]⟩).2
     ⟨⟨0, some 1⟩, some 5⟩ ⟨[]⟩ rfl⟩

/-- C6: pushNextTask on an Acquire scope constructed without a
continuation state fails fatally (programming-contract violation), and
whenever a continuation state was supplied at construction it succeeds,
delegating to the holder helper with the stored state. -/
theorem acquire_pushNextTask_contract {F : Type}
    (s : ScopedContextAcquire F) (f : F) :
    (s.contextState_ = none →
        s.pushNextTask f =
          Except.error
            "ScopedContextAcquire::pushNextTask called without ContextState") ∧
      ∀ st, s.contextState_ = some st →
        s.pushNextTask f =
          Except.ok
            { s with holderHelper_ := s.holderHelper_.pushNextTask f st } := by
  constructor
  · intro h
    unfold ScopedContextAcquire.pushNextTask
    rw [h]
  · intro st h
    unfold ScopedContextAcquire.pushNextTask
    rw [h]

/-- Witness for C6: a concrete stateless scope fails, a concrete stateful
scope delegates to the holder helper with the stored state. -/
theorem acquire_pushNextTask_contract_witness :
    ScopedContextAcquire.pushNextTask (F := Nat)
        ⟨⟨0, some 1⟩, ⟨NotifTarget.holder 0⟩, none⟩ 3 =
      Except.error
        "ScopedContextAcquire::pushNextTask called without ContextState" ∧
    ScopedContextAcquire.pushNextTask (F := Nat)
        ⟨⟨0, some 1⟩, ⟨NotifTarget.holder 0⟩, some ⟨2, some 4⟩⟩ 3 =
      Except.ok ⟨⟨0, some 1⟩,
        ScopedContextHolderHelper.pushNextTask ⟨NotifTarget.holder 0⟩ 3
          ⟨2, some 4⟩, some ⟨2, some 4⟩⟩ :=
  ⟨(acquire_pushNextTask_contract
      ⟨⟨0, some 1⟩, ⟨NotifTarget.holder 0⟩, none⟩ 3).1 rfl,
   (acquire_pushNextTask_contract
      ⟨⟨0, some 1⟩, ⟨NotifTarget.holder 0⟩, some ⟨2, some 4⟩⟩ 3).2
     ⟨2, some 4⟩ rfl⟩

/-- C7: constructing a Produce scope from continuation state transfers
single ownership of the stream out of the state: the scope holds the
state's former device and stream, and afterwards the state keeps its
device but no longer holds a usable stream. -/
theorem produce_fromState_transfers_ownership (state : ContextState)
    (cache : EventCache) (scope : ScopedContextProduce)
    (state' : ContextState) (cache' : EventCache)
    (h : ScopedContextProduce.fromState state cache =
        some (scope, state', cache')) :
    scope.toScopedContextBase.device = state.device ∧
      scope.toScopedContextBase.streamPtr = state.streamPtr ∧
      state'.device = state.device ∧
      state'.streamPtr = none := by
  rcases cache with ⟨free⟩
  cases free with
  | nil =>
    simp [ScopedContextProduce.fromState, ScopedContextProduce.construct,
      EventCache.get] at h
  | cons e rest =>
    simp only [ScopedContextProduce.fromState, ScopedContextProduce.construct,
      EventCache.get, ContextState.releaseStreamPtr, Option.some.injEq,
      Prod.mk.injEq] at h
    obtain ⟨hscope, hstate, -⟩ := h
    rw [← hscope, ← hstate]
    exact ⟨rfl, rfl, rfl, rfl⟩

/-- Witness for C7 at a concrete continuation state and pool. -/
theorem produce_fromState_transfers_ownership_witness :
    (⟨⟨3, some 9⟩, some 5⟩ : ScopedContextProduce).toScopedContextBase.device =
        ContextState.device ⟨3, some 9⟩ ∧
      (⟨⟨3, some 9⟩, some 5⟩ :
          ScopedContextProduce).toScopedContextBase.streamPtr =
        ContextState.streamPtr ⟨3, some 9⟩ ∧
      ContextState.device ⟨3, none⟩ = ContextState.device ⟨3, some 9⟩ ∧
      ContextState.streamPtr ⟨3, none⟩ = none :=
  produce_fromState_transfers_ownership ⟨3, some 9⟩ ⟨[5]⟩
    ⟨⟨3, some 9⟩, some 5⟩ ⟨3, none⟩ ⟨[]⟩ rfl

/-- C8: constructing a Task scope from a continuation state adopts the
state's device and stream without mutating the state or taking ownership
of its stream: afterwards the state is unchanged and still holds its
stream. -/
theorem task_construct_readonly {F : Type} (state : ContextState)
    (w : NotifTarget F) :
    (ScopedContextTask.construct state w).2 = state ∧
      (ScopedContextTask.construct state w).1.toScopedContextBase.device =
        state.device ∧
      (ScopedContextTask.construct state w).1.toScopedContextBase.streamPtr =
        state.streamPtr ∧
      (ScopedContextTask.construct state w).2.streamPtr = state.streamPtr :=
  ⟨rfl, rfl, rfl, rfl⟩

/-- C9: every wrapper a single Produce scope creates — via wrap or via
emplace, however many times — carries the scope's device, the scope's
shared stream, and the scope's single event, which is the one the scope
allocated from the pool at construction. -/
theorem produce_wrap_emplace_same_provenance {T : Type}
    (base : ScopedContextBase) (cache : EventCache)
    (scope : ScopedContextProduce) (cache' : EventCache)
    (h : ScopedContextProduce.construct base cache = some (scope, cache'))
    (x y : T) (store : Nat → Option (Product T)) (token : Nat) :
    ((scope.wrap x).device = scope.toScopedContextBase.device ∧
        (scope.wrap x).stream = scope.toScopedContextBase.streamPtr ∧
        (scope.wrap x).event = scope.event_) ∧
      ((scope.wrap y).device = (scope.wrap x).device ∧
        (scope.wrap y).stream = (scope.wrap x).stream ∧
        (scope.wrap y).event = (scope.wrap x).event) ∧
      (((scope.emplace store token y).2).device = (scope.wrap x).device ∧
        ((scope.emplace store token y).2).stream = (scope.wrap x).stream ∧
        ((scope.emplace store token y).2).event = (scope.wrap x).event) ∧
      ∃ e rest, cache.free = e :: rest ∧ scope.event_ = some e :=
  ⟨⟨rfl, rfl, rfl⟩, ⟨rfl, rfl, rfl⟩, ⟨rfl, rfl, rfl⟩,
   construct_event_from_cache base cache scope cache' h⟩

/-- Witness for C9: a scope built from a one-event pool; its event is the
pool's event. -/
theorem produce_wrap_emplace_same_provenance_witness :
    ∃ e rest, EventCache.free ⟨[7]⟩ = e :: rest ∧
      (⟨⟨1, some 2⟩, some 7⟩ : ScopedContextProduce).event_ = some e :=
  (produce_wrap_emplace_same_provenance ⟨1, some 2⟩ ⟨[7]⟩
      ⟨⟨1, some 2⟩, some 7⟩ ⟨[]⟩ rfl (0 : Nat) 1 (fun _ => none) 0).2.2.2

/-- C10: the token-addressed getter overload returns exactly the same
value and issues exactly the same driver calls as the wrapper-based
getter applied to the product retrieved from the event store by the
token. -/
theorem getToken_refines_get {T : Type} (ctx : ScopedContextBase)
    (iEvent : EdmEvent T) (token : Nat) :
    ScopedContextGetterBase.getToken ctx iEvent token =
      ScopedContextGetterBase.get ctx (iEvent.get token) := rfl

end CmsHip
